import Mathlib

/-!
Shallow embedding of `src/services/dashboard/data_adapter.py` (AITB data
adapter): price resolution with an InfluxDB-before-Binance cascade, chart
candle resolution, candle backfill, and the bot supervision state machine.

Modelling conventions:
* wall-clock timestamps are integers counting seconds (`Int`);
* decimal values (prices, volumes, pnl, confidence) are `Int`-valued
  abstractions — no property examined here performs arithmetic on them;
* each network collaborator (an InfluxDB query, a Binance call) is passed
  in as an explicit result value: an `err` constructor for a raised
  exception, otherwise the rows the call yielded;
* FastAPI endpoint handlers become pure functions from their inputs and
  the collaborator results to an `Except` of HTTP error code and response
  body, paired with the updated piece of mutable state wherever the
  handler mutates one.
-/

deriving instance DecidableEq for Except

namespace DataAdapter

/-- A latest-price row as returned by the InfluxDB query inside
`DataAdapter.get_latest_price_from_influx`: the stored price value and the
stored record's timestamp. -/
structure InfluxPriceRow where
  price : Int
  timestamp : Int
deriving DecidableEq, Repr

/-- Outcome of the raw InfluxDB latest-price query for one symbol: the
query can raise (the exception is caught inside
`get_latest_price_from_influx`), return no rows, or return one latest
row. -/
inductive StoreQueryResult where
  | err (message : String)
  | empty
  | found (row : InfluxPriceRow)
deriving DecidableEq, Repr

/-- `DataAdapter.get_latest_price_from_influx` (data_adapter.py:209-239):
returns the latest stored price row, and returns `None` both when the
query yields no rows and when the client raises (the `except` branch logs
and returns `None`). -/
def get_latest_price_from_influx : StoreQueryResult → Option InfluxPriceRow
  | .err _ => none
  | .empty => none
  | .found row => some row

/-- Body of the `PriceResponse` pydantic model (data_adapter.py:58-62). -/
structure PriceResponse where
  symbol : String
  price : Int
  timestamp : Int
  source : String
deriving DecidableEq, Repr

/-- The `/data/price` handler `get_price` (data_adapter.py:438-464): try
InfluxDB first; if a row came back and its age is at most 300 seconds,
return it tagged `source="influx"`; otherwise fall back to Binance, whose
result is tagged `source="binance"`; 404 when Binance also fails.
`binance` is the Binance ticker-price call's outcome (`none` both for a
missing symbol and for a transport error, mirroring
`get_price_from_binance`, data_adapter.py:241-260). -/
def get_price (symbol : String) (now : Int) (store : StoreQueryResult)
    (binance : Option Int) : Except Nat PriceResponse :=
  match get_latest_price_from_influx store with
  | some row =>
      if now - row.timestamp ≤ 300 then
        .ok { symbol := symbol, price := row.price, timestamp := row.timestamp,
              source := "influx" }
      else
        match binance with
        | some p =>
            .ok { symbol := symbol, price := p, timestamp := now, source := "binance" }
        | none => .error 404
  | none =>
      match binance with
      | some p =>
          .ok { symbol := symbol, price := p, timestamp := now, source := "binance" }
      | none => .error 404

/-- The freshness test of `get_price`: the store query produced a row whose
age `now - timestamp` is at most 300 seconds. -/
def store_fresh (now : Int) (store : StoreQueryResult) : Bool :=
  match get_latest_price_from_influx store with
  | some row => decide (now - row.timestamp ≤ 300)
  | none => false

/-- A candle row as built by `get_candles_from_binance`
(data_adapter.py:296-329) and `get_candles_from_influx`
(data_adapter.py:389-429): open time in seconds plus the OHLCV fields and
the tagging columns.  `open` is a reserved word in Lean, hence `open_`. -/
structure Candle where
  timestamp : Int
  open_ : Int
  high : Int
  low : Int
  close : Int
  volume : Int
  symbol : String
  timeframe : String
deriving DecidableEq, Repr

/-- Outcome of the raw Binance klines request inside
`DataAdapter.get_candles_from_binance`: either the request raised (timeout,
HTTP error — the message is what the exception stringifies to) or it
returned a list of candles. -/
inductive ExchangeResult where
  | err (message : String)
  | ok (candles : List Candle)
deriving DecidableEq, Repr

/-- `DataAdapter.get_candles_from_binance` (data_adapter.py:296-329): the
`except` branch logs the error and returns the empty list, so callers see
an exchange failure as zero candles. -/
def get_candles_from_binance : ExchangeResult → List Candle
  | .err _ => []
  | .ok cs => cs

/-- Response body of the `/chart/candles` handler (data_adapter.py:500-526). -/
structure CandlesResult where
  candles : List Candle
  symbol : String
  interval : String
  count : Nat
  source : String
deriving DecidableEq, Repr

/-- The `/chart/candles` handler `get_chart_candles`
(data_adapter.py:487-534): serve the InfluxDB candles when the list is
non-empty (Python truthiness of `candles`) and holds at least
`min(50, limit // 2)` rows; otherwise fall back to Binance, tag the result
`source="binance"`, and 404 when Binance also yields nothing.  The returned
`Bool` records whether the Binance klines call was made.  The opportunistic
write of the fetched candles back into InfluxDB does not influence the
response and is not needed by any property examined here, so it is left
out of this model. -/
def get_chart_candles (symbol interval : String) (limit : Nat)
    (influxCandles : List Candle) (exchange : ExchangeResult) :
    Except Nat CandlesResult × Bool :=
  if influxCandles ≠ [] ∧ influxCandles.length ≥ min 50 (limit / 2) then
    (.ok { candles := influxCandles, symbol := symbol, interval := interval,
           count := influxCandles.length, source := "influxdb" }, false)
  else
    let candles := get_candles_from_binance exchange
    if candles ≠ [] then
      (.ok { candles := candles, symbol := symbol, interval := interval,
             count := candles.length, source := "binance" }, true)
    else
      (.error 404, true)

/-- A concrete candle used by closed-form statements below. -/
def sampleCandle : Candle :=
  { timestamp := 0, open_ := 1, high := 2, low := 0, close := 1, volume := 3,
    symbol := "BTCUSDT", timeframe := "1m" }

/-- Does `sub` occur as a contiguous substring of `s`? -/
def strContains (s sub : String) : Bool :=
  (List.range (s.data.length + 1)).any fun i => sub.data.isPrefixOf (s.data.drop i)

/-- One stored point of the `candles` measurement
(`write_candles_to_influx` builds `Point("candles")` with tags `symbol`,
`timeframe`, fields open/high/low/close/volume and the candle timestamp in
seconds, data_adapter.py:336-351).  The measurement, the tag set and the
timestamp form InfluxDB's natural key. -/
structure StorePoint where
  symbol : String
  timeframe : String
  timestamp : Int
  open_ : Int
  high : Int
  low : Int
  close : Int
  volume : Int
deriving DecidableEq, Repr

/-- The candle rows currently held by the InfluxDB bucket. -/
abbrev Store := List StorePoint

/-- Two points collide on InfluxDB's natural key: same tag set and same
timestamp. -/
def sameKey (p q : StorePoint) : Bool :=
  p.symbol == q.symbol && p.timeframe == q.timeframe && p.timestamp == q.timestamp

/-- The point built from one fetched candle (data_adapter.py:338-351). -/
def pointOfCandle (c : Candle) : StorePoint :=
  { symbol := c.symbol, timeframe := c.timeframe, timestamp := c.timestamp,
    open_ := c.open_, high := c.high, low := c.low, close := c.close,
    volume := c.volume }

/-- Writing one point: InfluxDB overwrites the field set of an existing
point with the same measurement, tag set and timestamp, otherwise adds a
new point. -/
def upsert (store : Store) (p : StorePoint) : Store :=
  store.filter (fun q => !(sameKey q p)) ++ [p]

/-- `DataAdapter.write_candles_to_influx` (data_adapter.py:331-359): builds
one point per candle and submits the batch; returns `len(points)` — the
number of points submitted, counting overwrites of already-present points.
Empty input returns 0 without touching the store. -/
def write_candles_to_influx (store : Store) (candles : List Candle) :
    Store × Nat :=
  if candles = [] then (store, 0)
  else ((candles.map pointOfCandle).foldl upsert store, candles.length)

/-- `DataAdapter.check_influx_candle_count` (data_adapter.py:361-387):
count of stored `candles` points for the symbol/timeframe whose timestamp
lies within the trailing `hours`-hour window (Flux `range(start: -24h)`,
default 24). -/
def check_influx_candle_count (store : Store) (symbol interval : String)
    (now : Int) (hours : Int := 24) : Nat :=
  (store.filter fun p =>
    p.symbol == symbol && p.timeframe == interval &&
      decide (now - 3600 * hours ≤ p.timestamp) && decide (p.timestamp < now)).length

/-- The `BackfillRequest` pydantic model (data_adapter.py:77-80) with its
field defaults. -/
structure BackfillRequest where
  symbol : String
  interval : String := "1m"
  limit : Nat := 500
deriving DecidableEq, Repr

/-- The `BackfillResponse` pydantic model (data_adapter.py:82-87). -/
structure BackfillResponse where
  symbol : String
  interval : String
  candlesWritten : Nat
  status : String
  message : String
deriving DecidableEq, Repr

/-- The `/data/backfill-candles` handler `backfill_candles`
(data_adapter.py:536-586): skip when the 24h window already holds at least
100 candles; otherwise fetch from Binance (an empty fetch — which is also
what an exchange error produces — yields `failed`), write the batch, and
report `candlesWritten` as the number of submitted points.  The returned
`Bool` records whether the Binance klines call was made. -/
def backfill_candles (request : BackfillRequest) (store : Store)
    (exchange : ExchangeResult) (now : Int) :
    BackfillResponse × Store × Bool :=
  let current_count := check_influx_candle_count store request.symbol request.interval now
  if current_count ≥ 100 then
    ({ symbol := request.symbol, interval := request.interval,
       candlesWritten := 0, status := "skipped",
       message := "Sufficient data exists (" ++ toString current_count ++
         " candles >= 100)" },
     store, false)
  else
    let candles := get_candles_from_binance exchange
    if candles = [] then
      ({ symbol := request.symbol, interval := request.interval,
         candlesWritten := 0, status := "failed",
         message := "No candle data available from Binance" },
       store, true)
    else
      let written := write_candles_to_influx store candles
      ({ symbol := request.symbol, interval := request.interval,
         candlesWritten := written.2, status := "success",
         message := "Successfully backfilled " ++ toString written.2 ++ " candles" },
       written.1, true)

/-- The `BotSignal` pydantic model (data_adapter.py:95-101).  `confidence`
and `price` are decimal-valued in the source; no property examined here
computes with them, so they are integer abstractions. -/
structure BotSignal where
  timestamp : String
  signal : String
  confidence : Int
  symbol : String
  price : Int
  reason : String
deriving DecidableEq, Repr

/-- An opaque open-position record (`Dict[str, Any]` in the source): a
JSON-object-like list of key/value pairs, stored and forwarded but never
interpreted. -/
abbrev PositionRecord := List (String × String)

/-- The `BotHeartbeat` pydantic model (data_adapter.py:112-119) with its
field defaults. -/
structure BotHeartbeat where
  timestamp : String
  state : String
  symbol : String
  tf : String
  lastSignal : Option BotSignal := none
  openPositions : List PositionRecord := []
  pnl : Int := 0
deriving DecidableEq, Repr

/-- The `BotControlRequest` pydantic model (data_adapter.py:90-93): the
optional `symbol` and `tf` fields default to `"BTCUSDT"` and `"15m"` when
the client omits them; an explicit JSON `null` gives `none`. -/
structure BotControlRequest where
  action : String
  symbol : Option String := some "BTCUSDT"
  tf : Option String := some "15m"
deriving DecidableEq, Repr

/-- The `BotStatus` pydantic model (data_adapter.py:103-110);
`lastHeartbeatTs` is serialized as an ISO instant in the source and is an
integer instant here. -/
structure BotStatus where
  state : String
  lastHeartbeatTs : Int
  currentSymbol : String
  tf : String
  openPositions : List PositionRecord
  pnl : Int
  lastSignals : List BotSignal
deriving DecidableEq, Repr

/-- The mutable fields of `BotManager` (data_adapter.py:121-131), with the
initial values `__init__` assigns; `last_heartbeat` is initialized to the
construction instant, passed in as `t0` by `botManager_init`. -/
structure BotManagerState where
  state : String := "stopped"
  current_symbol : String := "BTCUSDT"
  current_tf : String := "15m"
  last_heartbeat : Int := 0
  open_positions : List PositionRecord := []
  pnl : Int := 0
  last_signals : List BotSignal := []
deriving DecidableEq, Repr

/-- `BotManager.__init__` (data_adapter.py:124-131) at construction
instant `t0`. -/
def botManager_init (t0 : Int) : BotManagerState :=
  { last_heartbeat := t0 }

/-- `BotManager.update_heartbeat` (data_adapter.py:133-145): stamps
`last_heartbeat` with the supervisor's wall clock (`datetime.now`, the
`now` argument here — the payload's own `timestamp` field is not read),
copies the worker-reported fields, and, when a signal is attached, pushes
it to the front of the history truncated to 3. -/
def update_heartbeat (now : Int) (s : BotManagerState) (heartbeat : BotHeartbeat) :
    BotManagerState :=
  let s1 : BotManagerState :=
    { s with last_heartbeat := now, state := heartbeat.state,
             current_symbol := heartbeat.symbol, current_tf := heartbeat.tf,
             open_positions := heartbeat.openPositions, pnl := heartbeat.pnl }
  match heartbeat.lastSignal with
  | some sig => { s1 with last_signals := (sig :: s1.last_signals).take 3 }
  | none => s1

/-- `BotManager.set_state` (data_adapter.py:147-160): the three recognized
actions set the state (stop also clears positions), any other action
leaves it; then the `if symbol:` / `if tf:` truthiness guards overwrite
the tracked symbol/timeframe only for a present, non-empty string. -/
def set_state (s : BotManagerState) (action : String)
    (symbol tf : Option String) : BotManagerState :=
  let s1 : BotManagerState :=
    if action == "start" then { s with state := "running" }
    else if action == "pause" then { s with state := "paused" }
    else if action == "stop" then { s with state := "stopped", open_positions := [] }
    else s
  let s2 : BotManagerState :=
    match symbol with
    | some sym => if sym ≠ "" then { s1 with current_symbol := sym } else s1
    | none => s1
  match tf with
  | some t => if t ≠ "" then { s2 with current_tf := t } else s2
  | none => s2

/-- `BotManager.get_status` (data_adapter.py:162-172). -/
def get_status (s : BotManagerState) : BotStatus :=
  { state := s.state, lastHeartbeatTs := s.last_heartbeat,
    currentSymbol := s.current_symbol, tf := s.current_tf,
    openPositions := s.open_positions, pnl := s.pnl,
    lastSignals := s.last_signals }

/-- `BotManager.is_heartbeat_stale` (data_adapter.py:174-177): the age of
the last heartbeat exceeds `max_age_seconds` (default 60). -/
def is_heartbeat_stale (now : Int) (s : BotManagerState)
    (max_age_seconds : Int := 60) : Bool :=
  decide (now - s.last_heartbeat > max_age_seconds)

/-- The `/bot/status` handler `bot_status` (data_adapter.py:620-636):
builds the status from the manager, then — when the heartbeat is stale and
the stored state is `"running"` — reports `"disconnected"` and ALSO
assigns `bot_manager.state = "disconnected"`.  The second component is the
manager state after the handler ran. -/
def bot_status (now : Int) (s : BotManagerState) : BotStatus × BotManagerState :=
  let status := get_status s
  if is_heartbeat_stale now s && (s.state == "running") then
    ({ status with state := "disconnected" }, { s with state := "disconnected" })
  else
    (status, s)

/-- Response body of the `/bot/control` handler (data_adapter.py:605-612). -/
structure BotControlResponse where
  status : String
  message : String
  newState : String
  symbol : String
  tf : String
  timestamp : Int
deriving DecidableEq, Repr

/-- The `/bot/control` handler `bot_control` (data_adapter.py:589-618):
400 for an action outside start/pause/stop, otherwise apply `set_state`
and echo the resulting state, symbol and timeframe. -/
def bot_control (request : BotControlRequest) (s : BotManagerState) (now : Int) :
    Except Nat BotControlResponse × BotManagerState :=
  if request.action ≠ "start" ∧ request.action ≠ "pause" ∧ request.action ≠ "stop" then
    (.error 400, s)
  else
    let s1 := set_state s request.action request.symbol request.tf
    (.ok { status := "success",
           message := "Bot " ++ request.action ++ " command executed",
           newState := s1.state, symbol := s1.current_symbol,
           tf := s1.current_tf, timestamp := now },
     s1)

/-- Does some point of `l` collide with `x` on the natural key? -/
def hasKeyIn (l : List StorePoint) (x : StorePoint) : Bool :=
  l.any fun p => sameKey x p

/-- A store already holding 100 in-window candle rows for
`("BTCUSDT","1m")`, used to exercise the backfill skip path. -/
def fullStore : Store :=
  List.replicate 100
    { symbol := "BTCUSDT", timeframe := "1m", timestamp := 50,
      open_ := 1, high := 1, low := 1, close := 1, volume := 1 }

/-- A daily candle whose open time `n` lies far outside the trailing
24-hour coverage window of the backfill check. -/
def oldCandle (n : Int) : Candle :=
  { timestamp := n, open_ := 1, high := 1, low := 1, close := 1, volume := 1,
    symbol := "BTCUSDT", timeframe := "1d" }

/-- A supervisor state whose worker reported `"running"` with its last
heartbeat at instant 0. -/
def runningState : BotManagerState :=
  { state := "running", last_heartbeat := 0 }

/-- A supervisor state currently tracking `("ETHUSDT","1h")`. -/
def ethState : BotManagerState :=
  { state := "running", current_symbol := "ETHUSDT", current_tf := "1h" }

/-- The `n`-th distinct signal of the heartbeat scenario. -/
def sigOf (n : Int) : BotSignal :=
  { timestamp := toString n, signal := "buy", confidence := n,
    symbol := "BTCUSDT", price := n, reason := "signal " ++ toString n }

/-- A heartbeat carrying the `n`-th distinct signal. -/
def hbSig (n : Int) : BotHeartbeat :=
  { timestamp := toString n, state := "running", symbol := "BTCUSDT",
    tf := "15m", lastSignal := some (sigOf n) }

/-- **C1.** Price resolution returns a point tagged with the store source
only if the store query yielded a row of age at most 300 seconds; in every
other case it falls back to the exchange value, tagged with the exchange
source. -/
theorem C1_price_store_only_if_fresh (symbol : String) (now : Int)
    (store : StoreQueryResult) (binance : Option Int) :
    (∀ r, get_price symbol now store binance = .ok r →
        (r.source = "influx" ↔ store_fresh now store = true)) ∧
    (store_fresh now store = false →
      ∀ p, binance = some p →
        get_price symbol now store binance =
          .ok { symbol := symbol, price := p, timestamp := now, source := "binance" }) := by
  constructor
  · intro r hr
    cases store with
    | err m =>
        cases binance with
        | none => simp [get_price, get_latest_price_from_influx] at hr
        | some p =>
            injection hr with h
            subst h
            simp [store_fresh, get_latest_price_from_influx]
    | empty =>
        cases binance with
        | none => simp [get_price, get_latest_price_from_influx] at hr
        | some p =>
            injection hr with h
            subst h
            simp [store_fresh, get_latest_price_from_influx]
    | found row =>
        unfold get_price at hr
        simp only [get_latest_price_from_influx] at hr
        by_cases hfresh : now - row.timestamp ≤ 300
        · rw [if_pos hfresh] at hr
          injection hr with h
          subst h
          simp [store_fresh, get_latest_price_from_influx, hfresh]
        · rw [if_neg hfresh] at hr
          cases binance with
          | none => simp at hr
          | some p =>
              injection hr with h
              subst h
              exact iff_of_false (by simp) (by simp [store_fresh, get_latest_price_from_influx, hfresh])
  · intro hstale p hp
    subst hp
    cases store with
    | err m => rfl
    | empty => rfl
    | found row =>
        unfold store_fresh get_latest_price_from_influx at hstale
        simp only [decide_eq_false_iff_not] at hstale
        show (if now - row.timestamp ≤ 300 then
            Except.ok { symbol := symbol, price := row.price, timestamp := row.timestamp,
                        source := "influx" }
          else
            Except.ok
              ({ symbol := symbol, price := p, timestamp := now,
                 source := "binance" } : PriceResponse)) =
          Except.ok { symbol := symbol, price := p, timestamp := now, source := "binance" }
        rw [if_neg hstale]

/-- Witness for C1 at concrete inputs: an empty store result is not fresh,
so resolution returns the Binance value tagged with the exchange source. -/
theorem C1_price_store_only_if_fresh_witness :
    get_price "BTCUSDT" 1000 StoreQueryResult.empty (some 42) =
      .ok { symbol := "BTCUSDT", price := 42, timestamp := 1000, source := "binance" } :=
  (C1_price_store_only_if_fresh "BTCUSDT" 1000 StoreQueryResult.empty (some 42)).2
    (by decide) 42 rfl

/-- **C5.** Price resolution 404s exactly when the store yields no fresh
value and the exchange yields nothing; in particular a store client error
with a healthy exchange resolves to the exchange value, so a store failure
never fails the overall resolution. -/
theorem C5_notfound_only_when_both_fail (symbol : String) (now : Int)
    (store : StoreQueryResult) (binance : Option Int) :
    (get_price symbol now store binance = .error 404 ↔
      store_fresh now store = false ∧ binance = none) ∧
    (∀ e p, get_price symbol now (.err e) (some p) =
      .ok { symbol := symbol, price := p, timestamp := now, source := "binance" }) := by
  refine ⟨?_, fun e p => rfl⟩
  cases store with
  | err m =>
      cases binance with
      | none => simp [get_price, get_latest_price_from_influx, store_fresh]
      | some p => simp [get_price, get_latest_price_from_influx, store_fresh]
  | empty =>
      cases binance with
      | none => simp [get_price, get_latest_price_from_influx, store_fresh]
      | some p => simp [get_price, get_latest_price_from_influx, store_fresh]
  | found row =>
      by_cases hfresh : now - row.timestamp ≤ 300
      · cases binance <;>
          simp [get_price, get_latest_price_from_influx, store_fresh, hfresh]
      · cases binance <;>
          simp [get_price, get_latest_price_from_influx, store_fresh, hfresh]

/-- Witness for C5 at concrete inputs: a store client error together with
an exchange miss is exactly the 404 case. -/
theorem C5_notfound_witness :
    get_price "BTCUSDT" 0 (.err "connection refused") none = .error 404 :=
  ((C5_notfound_only_when_both_fail "BTCUSDT" 0 (.err "connection refused") none).1).2
    ⟨rfl, rfl⟩

/-- **C2 counterexample.** At `limit = 1` the sufficiency bound
`min 50 (limit / 2)` is `0`, so an empty store reply holds "at least
min(50, limit/2)" candles; the claim then promises the store candles with
no exchange call, but the handler's truthiness guard rejects the empty
list, calls Binance, and returns the Binance rows tagged `"binance"`. -/
theorem C2_counterexample :
    min 50 (1 / 2) ≤ ([] : List Candle).length ∧
    (get_chart_candles "BTCUSDT" "1m" 1 [] (.ok [sampleCandle])).2 = true ∧
    (get_chart_candles "BTCUSDT" "1m" 1 [] (.ok [sampleCandle])).1 =
      .ok { candles := [sampleCandle], symbol := "BTCUSDT", interval := "1m",
            count := 1, source := "binance" } := by
  decide

/-- **C2 (amended).** If the store query returns a NON-EMPTY list of at
least `min 50 (limit / 2)` candles (integer division, and the non-emptiness
is the extra condition the code's truthiness guard imposes), candle
resolution returns exactly those store candles tagged with the store
source and never calls the exchange; otherwise it calls the exchange and,
when that yields a non-empty list, returns it tagged with the exchange
source. -/
theorem C2_store_sufficiency (symbol interval : String) (limit : Nat)
    (influxCandles : List Candle) (exchange : ExchangeResult) :
    (influxCandles ≠ [] → influxCandles.length ≥ min 50 (limit / 2) →
      get_chart_candles symbol interval limit influxCandles exchange =
        (.ok { candles := influxCandles, symbol := symbol, interval := interval,
               count := influxCandles.length, source := "influxdb" }, false)) ∧
    (¬(influxCandles ≠ [] ∧ influxCandles.length ≥ min 50 (limit / 2)) →
      ∀ cs, exchange = .ok cs → cs ≠ [] →
        get_chart_candles symbol interval limit influxCandles exchange =
          (.ok { candles := cs, symbol := symbol, interval := interval,
                 count := cs.length, source := "binance" }, true)) := by
  constructor
  · intro h1 h2
    unfold get_chart_candles
    rw [if_pos ⟨h1, h2⟩]
  · intro h cs hex hcs
    subst hex
    unfold get_chart_candles
    rw [if_neg h]
    simp [get_candles_from_binance, hcs]

/-- Witness for the amended C2 at concrete inputs: 50 stored candles meet
the bound at `limit = 100` and are served from the store with no exchange
call, even with the exchange erroring. -/
theorem C2_store_sufficiency_witness :
    get_chart_candles "BTCUSDT" "1m" 100 (List.replicate 50 sampleCandle) (.err "down") =
      (.ok { candles := List.replicate 50 sampleCandle, symbol := "BTCUSDT",
             interval := "1m", count := (List.replicate 50 sampleCandle).length,
             source := "influxdb" }, false) :=
  (C2_store_sufficiency "BTCUSDT" "1m" 100 (List.replicate 50 sampleCandle)
      (.err "down")).1 (by decide) (by decide)

theorem sameKey_self (p : StorePoint) : sameKey p p = true := by
  simp [sameKey]

/-- Folding a batch of upserts over a store splits into the surviving old
rows (those whose key the batch does not touch) followed by the rows the
batch itself produces. -/
theorem foldl_upsert_split (l : List StorePoint) (s : Store) :
    l.foldl upsert s = s.filter (fun x => !(hasKeyIn l x)) ++ l.foldl upsert [] := by
  induction l generalizing s with
  | nil => simp [hasKeyIn]
  | cons p t ih =>
      have hfilter : ∀ u : Store,
          (u.filter (fun q => !(sameKey q p))).filter (fun x => !(hasKeyIn t x)) =
            u.filter (fun x => !(hasKeyIn (p :: t) x)) := by
        intro u
        rw [List.filter_filter]
        apply List.filter_congr
        intro x _
        simp only [hasKeyIn, List.any_cons, Bool.not_or]
        cases h1 : sameKey x p <;> cases h2 : t.any (fun q => sameKey x q) <;> simp
      rw [List.foldl_cons, ih (upsert s p), List.foldl_cons, ih (upsert [] p)]
      show ((s.filter fun q => !(sameKey q p)) ++ [p]).filter (fun x => !(hasKeyIn t x)) ++
          t.foldl upsert [] = _
      rw [List.filter_append, hfilter s, List.append_assoc]
      have hnilp : upsert [] p = [p] := rfl
      rw [hnilp]

/-- Every row of a batch-write into the empty store carries a key the
batch touches. -/
theorem mem_foldl_upsert (l : List StorePoint) (s : Store) (x : StorePoint)
    (hx : x ∈ l.foldl upsert s) : x ∈ s ∨ hasKeyIn l x = true := by
  induction l generalizing s with
  | nil => exact Or.inl hx
  | cons p t ih =>
      rw [List.foldl_cons] at hx
      rcases ih (upsert s p) hx with hmem | hkey
      · rcases List.mem_append.1 hmem with hold | hnew
        · exact Or.inl (List.mem_of_mem_filter hold)
        · have hxp : x = p := by simpa using hnew
          subst hxp
          right
          simp [hasKeyIn, sameKey_self]
      · right
        simp [hasKeyIn, List.any_cons]
        right
        simpa [hasKeyIn] using hkey

/-- Replaying the same batch of upserts is a no-op: the second pass only
overwrites rows with the values they already hold. -/
theorem foldl_upsert_idem (l : List StorePoint) (s : Store) :
    l.foldl upsert (l.foldl upsert s) = l.foldl upsert s := by
  conv_lhs => rw [foldl_upsert_split l (l.foldl upsert s)]
  conv_lhs => rw [foldl_upsert_split l s]
  rw [List.filter_append, List.filter_filter]
  have h1 : (s.filter fun a => !(hasKeyIn l a) && !(hasKeyIn l a)) =
      s.filter fun x => !(hasKeyIn l x) := by
    apply List.filter_congr
    intro x _
    cases hasKeyIn l x <;> rfl
  have h2 : ((l.foldl upsert []).filter fun x => !(hasKeyIn l x)) = [] := by
    rw [List.filter_eq_nil_iff]
    intro a ha
    rcases mem_foldl_upsert l [] a ha with h | h
    · simp at h
    · simp [h]
  rw [h1, h2, List.append_nil]
  exact (foldl_upsert_split l s).symm

/-- Writing the same non-empty candle batch a second time leaves the store
unchanged but still reports the full batch size. -/
theorem write_candles_idem (store : Store) (candles : List Candle)
    (h : candles ≠ []) :
    write_candles_to_influx (write_candles_to_influx store candles).1 candles =
      ((write_candles_to_influx store candles).1, candles.length) := by
  unfold write_candles_to_influx
  rw [if_neg h, if_neg h]
  exact congrArg (·, candles.length) (foldl_upsert_idem (candles.map pointOfCandle) store)

/-- Evaluation of the backfill skip path: enough in-window coverage means
no exchange call and an untouched store. -/
theorem backfill_eval_skip (request : BackfillRequest) (store : Store)
    (exchange : ExchangeResult) (now : Int)
    (h : check_influx_candle_count store request.symbol request.interval now ≥ 100) :
    backfill_candles request store exchange now =
      ({ symbol := request.symbol, interval := request.interval,
         candlesWritten := 0, status := "skipped",
         message := "Sufficient data exists (" ++
           toString (check_influx_candle_count store request.symbol request.interval now) ++
           " candles >= 100)" },
       store, false) := by
  simp only [backfill_candles]
  rw [if_pos h]

/-- Evaluation of the backfill failure path: below-threshold coverage and
an empty (or erroring) exchange fetch. -/
theorem backfill_eval_failed (request : BackfillRequest) (store : Store)
    (exchange : ExchangeResult) (now : Int)
    (h1 : ¬ check_influx_candle_count store request.symbol request.interval now ≥ 100)
    (h2 : get_candles_from_binance exchange = []) :
    backfill_candles request store exchange now =
      ({ symbol := request.symbol, interval := request.interval,
         candlesWritten := 0, status := "failed",
         message := "No candle data available from Binance" },
       store, true) := by
  simp only [backfill_candles]
  rw [if_neg h1, if_pos h2]

/-- Evaluation of the backfill success path: below-threshold coverage and
a non-empty exchange fetch; the whole batch is upserted and its size
reported. -/
theorem backfill_eval_success (request : BackfillRequest) (store : Store)
    (exchange : ExchangeResult) (now : Int)
    (h1 : ¬ check_influx_candle_count store request.symbol request.interval now ≥ 100)
    (h2 : get_candles_from_binance exchange ≠ []) :
    backfill_candles request store exchange now =
      ({ symbol := request.symbol, interval := request.interval,
         candlesWritten := (get_candles_from_binance exchange).length,
         status := "success",
         message := "Successfully backfilled " ++
           toString (get_candles_from_binance exchange).length ++ " candles" },
       ((get_candles_from_binance exchange).map pointOfCandle).foldl upsert store,
       true) := by
  simp only [backfill_candles]
  rw [if_neg h1, if_neg h2]
  simp [write_candles_to_influx, h2]

/-- **C6.** When the 24h-window store count is at least the coverage
threshold 100, backfill returns SKIPPED with the count embedded in the
reason string and does not call the exchange (and leaves the store
untouched). -/
theorem C6_backfill_skip_threshold (request : BackfillRequest) (store : Store)
    (exchange : ExchangeResult) (now : Int)
    (h : check_influx_candle_count store request.symbol request.interval now ≥ 100) :
    backfill_candles request store exchange now =
      ({ symbol := request.symbol, interval := request.interval,
         candlesWritten := 0, status := "skipped",
         message := "Sufficient data exists (" ++
           toString (check_influx_candle_count store request.symbol request.interval now) ++
           " candles >= 100)" },
       store, false) ∧
    ∃ preText postText,
      (backfill_candles request store exchange now).1.message =
        preText ++
          toString (check_influx_candle_count store request.symbol request.interval now) ++
          postText := by
  have hmain := backfill_eval_skip request store exchange now h
  refine ⟨hmain, "Sufficient data exists (", " candles >= 100)", ?_⟩
  rw [hmain]

/-- Witness for C6 at concrete inputs: a store holding 100 in-window rows
makes backfill skip without touching the store or the exchange. -/
theorem C6_backfill_skip_witness :
    (backfill_candles { symbol := "BTCUSDT", interval := "1m", limit := 500 }
        fullStore (.ok [sampleCandle]) 100).1.status = "skipped" ∧
    (backfill_candles { symbol := "BTCUSDT", interval := "1m", limit := 500 }
        fullStore (.ok [sampleCandle]) 100).2.2 = false := by
  have h := (C6_backfill_skip_threshold
    { symbol := "BTCUSDT", interval := "1m", limit := 500 }
    fullStore (.ok [sampleCandle]) 100 (by decide)).1
  rw [h]
  exact ⟨rfl, rfl⟩

/-- **C7 counterexample.** An exchange timeout during backfill yields
FAILED, but the underlying error text is nowhere in the reason field: the
handler sees only the empty list `get_candles_from_binance` returns after
catching and logging the exception, and emits the fixed message
"No candle data available from Binance". -/
theorem C7_counterexample :
    (backfill_candles { symbol := "BTCUSDT", interval := "1m", limit := 500 } []
        (.err "ReadTimeout: HTTPSConnectionPool timed out") 0).1.status = "failed" ∧
    strContains
      (backfill_candles { symbol := "BTCUSDT", interval := "1m", limit := 500 } []
        (.err "ReadTimeout: HTTPSConnectionPool timed out") 0).1.message
      "ReadTimeout" = false := by
  decide

/-- **C7 (amended).** When the exchange fetch during backfill errors (and
the coverage check did not skip), backfill does not retry and returns
FAILED with the fixed message "No candle data available from Binance" and
candlesWritten 0, leaving the store untouched; the underlying error text
is only logged, not included in the reason. -/
theorem C7_failed_generic_message (request : BackfillRequest) (store : Store)
    (now : Int) (e : String)
    (h : ¬ check_influx_candle_count store request.symbol request.interval now ≥ 100) :
    backfill_candles request store (.err e) now =
      ({ symbol := request.symbol, interval := request.interval,
         candlesWritten := 0, status := "failed",
         message := "No candle data available from Binance" },
       store, true) :=
  backfill_eval_failed request store (.err e) now h rfl

/-- Witness for the amended C7 at concrete inputs. -/
theorem C7_failed_generic_message_witness :
    backfill_candles { symbol := "XYZUSDT", interval := "5m", limit := 10 } []
        (.err "boom") 0 =
      ({ symbol := "XYZUSDT", interval := "5m", candlesWritten := 0,
         status := "failed",
         message := "No candle data available from Binance" },
       [], true) :=
  C7_failed_generic_message { symbol := "XYZUSDT", interval := "5m", limit := 10 }
    [] 0 "boom" (by decide)

/-- **C4 counterexample.** Backfill twice with no intervening change, for
daily candles whose open times lie outside the 24h coverage window: the
second invocation is neither SKIPPED nor does it report 0 — the coverage
check still sees fewer than 100 in-window rows, so the same two candles
are fetched and re-submitted and the second call reports
`candlesWritten = 2`. -/
theorem C4_counterexample :
    (backfill_candles { symbol := "BTCUSDT", interval := "1d", limit := 2 }
        ((backfill_candles { symbol := "BTCUSDT", interval := "1d", limit := 2 } []
            (.ok [oldCandle 100, oldCandle 200]) 1000000).2.1)
        (.ok [oldCandle 100, oldCandle 200]) 1000000).1.status ≠ "skipped" ∧
    (backfill_candles { symbol := "BTCUSDT", interval := "1d", limit := 2 }
        ((backfill_candles { symbol := "BTCUSDT", interval := "1d", limit := 2 } []
            (.ok [oldCandle 100, oldCandle 200]) 1000000).2.1)
        (.ok [oldCandle 100, oldCandle 200]) 1000000).1.candlesWritten = 2 := by
  decide

/-- **C4 (amended).** Re-invoking backfill with no intervening data change
is idempotent at the store level — the second invocation never changes the
store further — and on the response level: a skipped or failed first call
repeats verbatim; after a successful first call the second is SKIPPED
(with 0 written) exactly when at least 100 of the freshly written rows lie
in the 24h window, and otherwise re-fetches and reports the same full
batch size again rather than 0. -/
theorem C4_backfill_reinvocation (request : BackfillRequest) (store : Store)
    (exchange : ExchangeResult) (now : Int)
    (r1 : BackfillResponse × Store × Bool)
    (hr1 : r1 = backfill_candles request store exchange now)
    (r2 : BackfillResponse × Store × Bool)
    (hr2 : r2 = backfill_candles request r1.2.1 exchange now) :
    r2.2.1 = r1.2.1 ∧
    (r1.1.status = "skipped" → r2 = r1) ∧
    (r1.1.status = "failed" → r2 = r1) ∧
    (r1.1.status = "success" →
      (check_influx_candle_count r1.2.1 request.symbol request.interval now ≥ 100 →
        r2.1.status = "skipped" ∧ r2.1.candlesWritten = 0) ∧
      (¬ check_influx_candle_count r1.2.1 request.symbol request.interval now ≥ 100 →
        r2.1.status = "success" ∧ r2.1.candlesWritten = r1.1.candlesWritten)) := by
  subst hr1
  by_cases hA : check_influx_candle_count store request.symbol request.interval now ≥ 100
  · rw [backfill_eval_skip request store exchange now hA] at hr2 ⊢
    rw [backfill_eval_skip request store exchange now hA] at hr2
    subst hr2
    refine ⟨rfl, fun _ => rfl, ?_, ?_⟩
    · intro hcontra
      simp at hcontra
    · intro hcontra
      simp at hcontra
  · by_cases hB : get_candles_from_binance exchange = []
    · rw [backfill_eval_failed request store exchange now hA hB] at hr2 ⊢
      rw [backfill_eval_failed request store exchange now hA hB] at hr2
      subst hr2
      refine ⟨rfl, ?_, fun _ => rfl, ?_⟩
      · intro hcontra
        simp at hcontra
      · intro hcontra
        simp at hcontra
    · rw [backfill_eval_success request store exchange now hA hB] at hr2 ⊢
      by_cases hC : check_influx_candle_count
          (((get_candles_from_binance exchange).map pointOfCandle).foldl upsert store)
          request.symbol request.interval now ≥ 100
      · rw [backfill_eval_skip request _ exchange now hC] at hr2
        subst hr2
        refine ⟨rfl, ?_, ?_, fun _ => ⟨fun _ => ⟨rfl, rfl⟩, fun hcontra => absurd hC hcontra⟩⟩
        · intro hcontra
          simp at hcontra
        · intro hcontra
          simp at hcontra
      · rw [backfill_eval_success request _ exchange now hC hB] at hr2
        subst hr2
        refine ⟨?_, ?_, ?_, fun _ => ⟨fun hcontra => absurd hcontra hC, fun _ => ⟨rfl, rfl⟩⟩⟩
        · exact foldl_upsert_idem (List.map pointOfCandle (get_candles_from_binance exchange)) store
        · intro hcontra
          simp at hcontra
        · intro hcontra
          simp at hcontra

/-- Witness for the amended C4 at concrete inputs: after a successful
first backfill of two out-of-window daily candles, the second invocation
is again a success reporting the same batch size. -/
theorem C4_backfill_reinvocation_witness :
    (backfill_candles { symbol := "BTCUSDT", interval := "1d", limit := 2 }
        ((backfill_candles { symbol := "BTCUSDT", interval := "1d", limit := 2 } []
            (.ok [oldCandle 100, oldCandle 200]) 1000000).2.1)
        (.ok [oldCandle 100, oldCandle 200]) 1000000).1.status = "success" ∧
    (backfill_candles { symbol := "BTCUSDT", interval := "1d", limit := 2 }
        ((backfill_candles { symbol := "BTCUSDT", interval := "1d", limit := 2 } []
            (.ok [oldCandle 100, oldCandle 200]) 1000000).2.1)
        (.ok [oldCandle 100, oldCandle 200]) 1000000).1.candlesWritten =
      (backfill_candles { symbol := "BTCUSDT", interval := "1d", limit := 2 } []
          (.ok [oldCandle 100, oldCandle 200]) 1000000).1.candlesWritten := by
  have h := C4_backfill_reinvocation
    { symbol := "BTCUSDT", interval := "1d", limit := 2 } []
    (.ok [oldCandle 100, oldCandle 200]) 1000000 _ rfl _ rfl
  exact (h.2.2.2 (by decide)).2 (by decide)

/-- **C3 counterexample.** A status read IS a mutation here: with stored
state `"running"` and a 61-second-old heartbeat, the handler assigns
`bot_manager.state = "disconnected"`, so the stored supervisor state after
the read differs from the state before it. -/
theorem C3_counterexample :
    (bot_status 61 runningState).2 ≠ runningState ∧
    (bot_status 61 runningState).2.state = "disconnected" := by
  decide

/-- **C3 (amended).** When the stored state is RUNNING and the last
heartbeat is older than 60s, the status read reports DISCONNECTED and ALSO
stores that transition (the handler writes `state = "disconnected"` back
into the manager); on any other read the stored state is untouched; in
both cases a subsequent heartbeat immediately restores the worker's
self-reported state and refreshes the heartbeat instant. -/
theorem C3_disconnected_is_stored (now : Int) (s : BotManagerState) :
    (is_heartbeat_stale now s = true → s.state = "running" →
      (bot_status now s).1.state = "disconnected" ∧
      (bot_status now s).2 = { s with state := "disconnected" }) ∧
    (is_heartbeat_stale now s = false ∨ s.state ≠ "running" →
      (bot_status now s).1 = get_status s ∧ (bot_status now s).2 = s) ∧
    (∀ t heartbeat,
      (update_heartbeat t (bot_status now s).2 heartbeat).state = heartbeat.state ∧
      (update_heartbeat t (bot_status now s).2 heartbeat).last_heartbeat = t) := by
  refine ⟨?_, ?_, ?_⟩
  · intro h1 h2
    have hc : (is_heartbeat_stale now s && (s.state == "running")) = true := by
      simp [h1, h2]
    simp [bot_status, hc]
  · intro h
    have hc : (is_heartbeat_stale now s && (s.state == "running")) = false := by
      rcases h with h | h
      · simp [h]
      · simp [h]
    simp [bot_status, hc]
  · intro t heartbeat
    cases hsig : heartbeat.lastSignal <;> simp [update_heartbeat, hsig]

/-- Witness for the amended C3 at concrete inputs: a stale running state
is reported and stored as disconnected. -/
theorem C3_disconnected_is_stored_witness :
    (bot_status 61 runningState).1.state = "disconnected" ∧
    (bot_status 61 runningState).2 = { runningState with state := "disconnected" } :=
  (C3_disconnected_is_stored 61 runningState).1 (by decide) (by decide)

/-- **C8.** The signal history never exceeds capacity 3 under any sequence
of ingested heartbeats (each heartbeat prepends its signal, if any, and
truncates to 3), and after 5 sequential heartbeats carrying distinct
signals the history holds exactly the last 3, newest first. -/
theorem C8_recent_signals_bounded :
    (∀ (s : BotManagerState) (msgs : List (Int × BotHeartbeat)),
      s.last_signals.length ≤ 3 →
      ((msgs.foldl (fun st m => update_heartbeat m.1 st m.2) s).last_signals).length ≤ 3) ∧
    ([((1 : Int), hbSig 1), (2, hbSig 2), (3, hbSig 3), (4, hbSig 4),
        (5, hbSig 5)].foldl
          (fun st m => update_heartbeat m.1 st m.2) (botManager_init 0)).last_signals =
      [sigOf 5, sigOf 4, sigOf 3] := by
  constructor
  · intro s msgs
    induction msgs generalizing s with
    | nil => exact fun h => h
    | cons m t ih =>
        intro h
        rw [List.foldl_cons]
        refine ih (update_heartbeat m.1 s m.2) ?_
        cases hsig : m.2.lastSignal with
        | none => simpa [update_heartbeat, hsig] using h
        | some sig =>
            simp [update_heartbeat, hsig, List.length_take]
  · decide

/-- Witness for C8 at concrete inputs: from the freshly constructed
manager, its empty history is within the capacity bound. -/
theorem C8_recent_signals_bounded_witness :
    ((([] : List (Int × BotHeartbeat)).foldl
        (fun st m => update_heartbeat m.1 st m.2)
        (botManager_init 0)).last_signals).length ≤ 3 :=
  C8_recent_signals_bounded.1 (botManager_init 0) [] (by decide)

/-- **C9.** Heartbeat ingestion stamps `last_heartbeat` with the
supervisor's wall-clock arrival instant; the `timestamp` field inside the
payload is ignored entirely (the updated state does not depend on it), so
a delayed or backdated heartbeat still counts as fresh at arrival. -/
theorem C9_heartbeat_arrival_clock (now : Int) (s : BotManagerState)
    (heartbeat : BotHeartbeat) :
    (update_heartbeat now s heartbeat).last_heartbeat = now ∧
    (∀ t, update_heartbeat now s { heartbeat with timestamp := t } =
      update_heartbeat now s heartbeat) ∧
    is_heartbeat_stale now (update_heartbeat now s heartbeat) = false := by
  have hlast : (update_heartbeat now s heartbeat).last_heartbeat = now := by
    cases hsig : heartbeat.lastSignal <;> simp [update_heartbeat, hsig]
  refine ⟨hlast, ?_, ?_⟩
  · intro t
    cases hsig : heartbeat.lastSignal <;> simp [update_heartbeat, hsig]
  · simp [is_heartbeat_stale, hlast]

/-- **C10 counterexample.** A valid control command does not always
overwrite the tracked symbol/timeframe with the request's values: the
`if symbol:` / `if tf:` truthiness guards skip falsy values, so a pause
request carrying the empty-string symbol and timeframe leaves
`("ETHUSDT","1h")` in place instead of overwriting them. -/
theorem C10_counterexample :
    (bot_control { action := "pause", symbol := some "", tf := some "" }
        ethState 0).2.current_symbol = "ETHUSDT" ∧
    (bot_control { action := "pause", symbol := some "", tf := some "" }
        ethState 0).2.current_tf = "1h" ∧
    ¬ (bot_control { action := "pause", symbol := some "", tf := some "" }
        ethState 0).2.current_symbol = "" := by
  decide

/-- The tracked symbol after `set_state` with a present, non-empty
requested symbol is that symbol, for any action. -/
theorem set_state_current_symbol (s : BotManagerState) (action : String)
    (sym : String) (tf : Option String) (hsym : sym ≠ "") :
    (set_state s action (some sym) tf).current_symbol = sym := by
  unfold set_state
  cases tf with
  | none => simp [hsym]
  | some t => by_cases ht : t ≠ "" <;> simp [hsym, ht]

/-- The tracked timeframe after `set_state` with a present, non-empty
requested timeframe is that timeframe, for any action. -/
theorem set_state_current_tf (s : BotManagerState) (action : String)
    (symbol : Option String) (t : String) (ht : t ≠ "") :
    (set_state s action symbol (some t)).current_tf = t := by
  unfold set_state
  cases symbol with
  | none => simp [ht]
  | some sym => by_cases hsym : sym ≠ "" <;> simp [hsym, ht]

/-- **C10 (amended).** Every bot control command with a valid action —
including pause and stop — overwrites `currentSymbol`/`currentInterval`
with the request's symbol/timeframe values whenever those values are
present and non-empty (the code's truthiness guard); because the request
fields default to `"BTCUSDT"` and `"15m"` when the client omits them, a
bare control request resets the tracked pair to those defaults rather
than leaving it unchanged. -/
theorem C10_control_overwrites_tracked_pair (request : BotControlRequest)
    (s : BotManagerState) (now : Int)
    (hvalid : request.action = "start" ∨ request.action = "pause" ∨
      request.action = "stop") :
    (∀ sym, request.symbol = some sym → sym ≠ "" →
      (bot_control request s now).2.current_symbol = sym) ∧
    (∀ t, request.tf = some t → t ≠ "" →
      (bot_control request s now).2.current_tf = t) ∧
    (bot_control { action := request.action } s now).2.current_symbol = "BTCUSDT" ∧
    (bot_control { action := request.action } s now).2.current_tf = "15m" := by
  have hguard : ¬ (request.action ≠ "start" ∧ request.action ≠ "pause" ∧
      request.action ≠ "stop") := by
    rcases hvalid with h | h | h <;> simp [h]
  refine ⟨?_, ?_, ?_, ?_⟩
  · intro sym hsome hsym
    simp only [bot_control, if_neg hguard]
    rw [hsome]
    exact set_state_current_symbol s request.action sym request.tf hsym
  · intro t hsome ht
    simp only [bot_control, if_neg hguard]
    rw [hsome]
    exact set_state_current_tf s request.action request.symbol t ht
  · simp only [bot_control, if_neg hguard]
    exact set_state_current_symbol s request.action "BTCUSDT" (some "15m") (by decide)
  · simp only [bot_control, if_neg hguard]
    exact set_state_current_tf s request.action (some "BTCUSDT") "15m" (by decide)

/-- Witness for the amended C10 at concrete inputs: a stop command with an
explicit non-empty symbol overwrites the tracked symbol, and a bare stop
command resets it to the default "BTCUSDT" even though the prior value was
"ETHUSDT". -/
theorem C10_control_overwrites_witness :
    (bot_control { action := "stop", symbol := some "SOLUSDT", tf := some "4h" }
        ethState 7).2.current_symbol = "SOLUSDT" ∧
    (bot_control { action := "stop" } ethState 7).2.current_symbol = "BTCUSDT" := by
  have h := C10_control_overwrites_tracked_pair
    { action := "stop", symbol := some "SOLUSDT", tf := some "4h" } ethState 7
    (by simp)
  exact ⟨h.1 "SOLUSDT" rfl (by decide), h.2.2.1⟩

end DataAdapter
